import Mathlib

/-!
Verification of the lyrics-synchronization core of
`youtube_lyrics_window_overlay` (source: `src/main7.py`).

The Python code is shallowly embedded: pure helpers become Lean
functions on `List Char` / `String`, wall-clock readings become
explicit rational parameters, the HTTP layer becomes an oracle
`Nat → CallResult` consumed call-by-call, and Python exceptions become
`Except Unit`.  Time values (`minutes*60 + seconds + centis/100`,
`time.time()` readings) are modelled with `ℚ`.

Modelling notes kept throughout:
* Python's `\s` / `str.strip()` whitespace class is modelled by the
  ASCII whitespace characters (space, tab, newline, carriage return,
  vertical tab, form feed); window titles and LRC lines contain no
  exotic whitespace.
* The regexes of `main7.py` are compiled by hand to character-list
  scanners with Python's leftmost-match / global-substitution
  semantics, for strings without embedded newlines (window titles and
  already-split LRC lines never contain `\n`).
* `sorted(..., key=...)` is a stable sort; a stable sort's output is
  uniquely determined, and it is modelled by `List.insertionSort`
  (which is stable for a total preorder).
-/

/-- Python's whitespace class (`\s`, `str.strip()`), ASCII fragment. -/
def isSpaceChar (c : Char) : Bool :=
  c = ' ' || c = '\t' || c = '\n' || c = '\r' || c = Char.ofNat 11 || c = Char.ofNat 12

/-- `str.strip()`: drop whitespace from both ends of a character list. -/
def pStrip (cs : List Char) : List Char :=
  ((cs.dropWhile isSpaceChar).reverse.dropWhile isSpaceChar).reverse

/-- Case-insensitive literal match at the head of `cs` (the pattern is
given in lowercase; `re.IGNORECASE` on ASCII letters). -/
def ciHead : List Char → List Char → Bool
  | [], _ => true
  | _ :: _, [] => false
  | p :: ps, c :: cs => c.toLower = p && ciHead ps cs

/-- Case-insensitive substring containment (IGNORECASE `re.search` of a
literal inside a segment). -/
def containsCI (pat : List Char) : List Char → Bool
  | [] => pat.isEmpty
  | c :: cs => ciHead pat (c :: cs) || containsCI pat cs

/-- Does the segment contain a match of `\d+p` (IGNORECASE): a digit
immediately followed by `p`/`P`? -/
def hasDigitP : List Char → Bool
  | [] => false
  | c :: cs =>
    (c.isDigit && (match cs with
      | d :: _ => d.toLower = 'p'
      | [] => false)) || hasDigitP cs

/-! ### `clean_title` (src/main7.py lines 150-172) -/

/-- Does `re.sub(r'\s*-\s*YouTube.*$', ..., flags=IGNORECASE)` match at
this position?  (`\s*` before `-` must be whitespace; `\s*` after `-`
likewise; then the literal `YouTube` case-insensitively; `.*$` then
swallows the rest of a newline-free title.) -/
def ytMatchAt (cs : List Char) : Bool :=
  match cs.dropWhile isSpaceChar with
  | '-' :: r => ciHead "youtube".toList (r.dropWhile isSpaceChar)
  | _ => false

/-- Does `re.sub(r'\s*\|.*$', ...)` match at this position? -/
def pipeMatchAt (cs : List Char) : Bool :=
  match cs.dropWhile isSpaceChar with
  | '|' :: _ => true
  | _ => false

/-- Delete everything from the leftmost position where `p` matches
(the Python patterns above consume through the end of the title). -/
def cutAtMatch (p : List Char → Bool) : List Char → List Char
  | [] => []
  | c :: cs => if p (c :: cs) then [] else c :: cutAtMatch p cs

/-- One `re.sub` pass removing every non-overlapping
`\(<seg>\)`-style group (open `op`, close `cl`) whose inside segment
(which cannot contain `cl`) satisfies `hit`; scanning is left to right
and continues after each removed group, exactly as `re.sub` does.
`fuel` bounds the recursion (≥ length of the list suffices). -/
def removeGroupsF (op cl : Char) (hit : List Char → Bool) : Nat → List Char → List Char
  | 0, cs => cs
  | _ + 1, [] => []
  | f + 1, c :: cs =>
    if c = op then
      let seg := cs.takeWhile (fun d => !(d = cl))
      let rest := cs.dropWhile (fun d => !(d = cl))
      match rest with
      | [] => c :: removeGroupsF op cl hit f cs
      | _ :: rest' =>
        if hit seg then removeGroupsF op cl hit f rest'
        else c :: removeGroupsF op cl hit f cs
    else
      c :: removeGroupsF op cl hit f cs

/-- `re.sub` of a bracketed-annotation pattern over the whole string. -/
def removeGroups (op cl : Char) (hit : List Char → Bool) (cs : List Char) : List Char :=
  removeGroupsF op cl hit cs.length cs

/-- The fourteen annotation patterns of `clean_title`, applied in the
source order (paren/bracket `official`, `audio`, `video`, `lyric`,
paren `live`, `cover`, `remix`, `HD`, `\d+p`, bracket `HQ`). -/
def applyPatterns (cs : List Char) : List Char :=
  let l01 := removeGroups '(' ')' (containsCI "official".toList) cs
  let l02 := removeGroups '[' ']' (containsCI "official".toList) l01
  let l03 := removeGroups '(' ')' (containsCI "audio".toList) l02
  let l04 := removeGroups '[' ']' (containsCI "audio".toList) l03
  let l05 := removeGroups '(' ')' (containsCI "video".toList) l04
  let l06 := removeGroups '[' ']' (containsCI "video".toList) l05
  let l07 := removeGroups '(' ')' (containsCI "lyric".toList) l06
  let l08 := removeGroups '[' ']' (containsCI "lyric".toList) l07
  let l09 := removeGroups '(' ')' (containsCI "live".toList) l08
  let l10 := removeGroups '(' ')' (containsCI "cover".toList) l09
  let l11 := removeGroups '(' ')' (containsCI "remix".toList) l10
  let l12 := removeGroups '(' ')' (containsCI "hd".toList) l11
  let l13 := removeGroups '(' ')' hasDigitP l12
  removeGroups '[' ']' (containsCI "hq".toList) l13

/-- `' '.join(title.split())`: maximal non-whitespace runs. -/
def splitWsAux : List Char → List Char → List (List Char)
  | [], [] => []
  | [], acc => [acc.reverse]
  | c :: cs, acc =>
    if isSpaceChar c then
      match acc with
      | [] => splitWsAux cs []
      | _ :: _ => acc.reverse :: splitWsAux cs []
    else splitWsAux cs (c :: acc)

/-- `title.split()` (split on whitespace runs, no empties). -/
def splitWs (cs : List Char) : List (List Char) :=
  splitWsAux cs []

/-- `' '.join(title.split())`. -/
def collapseWs (cs : List Char) : List Char :=
  List.intercalate [' '] (splitWs cs)

/-- `clean_title` (src/main7.py lines 150-172): strip the `- YouTube`
tail, strip the `|` tail, remove the annotation groups, collapse
whitespace. -/
def clean_title (title : String) : String :=
  String.mk (collapseWs (applyPatterns (cutAtMatch pipeMatchAt (cutAtMatch ytMatchAt title.toList))))

/-! ### `parse_song` (src/main7.py lines 174-188) -/

/-- Split at the first occurrence of the literal `" - "`
(`clean.split(' - ', 1)`), if any. -/
def splitFirstDash : List Char → Option (List Char × List Char)
  | ' ' :: '-' :: ' ' :: rest => some ([], rest)
  | c :: rest =>
    match splitFirstDash rest with
    | some (a, b) => some (c :: a, b)
    | none => none
  | [] => none

/-- The apostrophe character of the `'<song>' <artist>` pattern. -/
def quoteChar : Char := Char.ofNat 39

/-- Anchored match of `r"'([^']+)'\s+(.+)"` (src/main7.py line 184),
returning (group 1, group 2).  After the closing quote, `\s+` takes the
maximal whitespace run and backtracks one character when `.+` would
otherwise be empty. -/
def quotedMatch (cs : List Char) : Option (List Char × List Char) :=
  match cs with
  | [] => none
  | c :: rest =>
    if c = quoteChar then
      let g1 := rest.takeWhile (fun d => !(d = quoteChar))
      let r1 := rest.dropWhile (fun d => !(d = quoteChar))
      if g1.isEmpty then none
      else
        match r1 with
        | [] => none
        | _ :: rest2 =>
          let w := rest2.takeWhile isSpaceChar
          let r := rest2.dropWhile isSpaceChar
          if w.isEmpty then none
          else
            match r with
            | [] => if 2 ≤ w.length then some (g1, w.drop (w.length - 1)) else none
            | _ :: _ => some (g1, r)
    else none

/-- `parse_song` (src/main7.py lines 174-188): returns
(artist, song, cleaned title). -/
def parse_song (title : String) : String × String × String :=
  let clean := clean_title title
  match splitFirstDash clean.toList with
  | some (a, b) => (String.mk (pStrip a), String.mk (pStrip b), clean)
  | none =>
    match quotedMatch clean.toList with
    | some (g1, g2) => (String.mk (pStrip g2), String.mk (pStrip g1), clean)
    | none => ("", String.mk (pStrip clean.toList), clean)

/-! ### `parse_lrc` (src/main7.py lines 250-265) -/

/-- A timed lyric line: `{'time': total_sec, 'text': text}`. -/
structure LyricLine where
  time : ℚ
  text : String
deriving Repr, DecidableEq

/-- Numeric value of a digit run (`int(...)` on the captured group). -/
def digitsVal (ds : List Char) : Nat :=
  ds.foldl (fun a c => a * 10 + (c.toNat - 48)) 0

/-- Anchored match of `r'\[(\d+):(\d+)\.(\d+)\](.*)'` (src/main7.py
line 254) on a stripped line, returning
(minutes digits value, seconds digits value, fraction digits value,
trailing text). -/
def matchTs (cs : List Char) : Option (Nat × Nat × Nat × List Char) :=
  match cs with
  | '[' :: r =>
    let d1 := r.takeWhile Char.isDigit
    let r1 := r.dropWhile Char.isDigit
    if d1.isEmpty then none
    else
      match r1 with
      | ':' :: r2 =>
        let d2 := r2.takeWhile Char.isDigit
        let r3 := r2.dropWhile Char.isDigit
        if d2.isEmpty then none
        else
          match r3 with
          | '.' :: r4 =>
            let d3 := r4.takeWhile Char.isDigit
            let r5 := r4.dropWhile Char.isDigit
            if d3.isEmpty then none
            else
              match r5 with
              | ']' :: rest => some (digitsVal d1, digitsVal d2, digitsVal d3, rest)
              | _ => none
          | _ => none
      | _ => none
  | _ => none

/-- One iteration of the `parse_lrc` loop, before the time arithmetic:
strip the line, match the timestamp pattern, strip the trailing text,
drop the entry when the text is empty; yields the three captured
integers and the text. -/
def parseLineRaw (cs : List Char) : Option (Nat × Nat × Nat × String) :=
  match matchTs (pStrip cs) with
  | none => none
  | some (m, s, c, rest) =>
    let text := pStrip rest
    if text.isEmpty then none
    else some (m, s, c, String.mk text)

/-- `total_sec = minutes * 60 + seconds + centis / 100`
(src/main7.py line 262). -/
def lrcTime (m s c : Nat) : ℚ :=
  (m : ℚ) * 60 + (s : ℚ) + (c : ℚ) / 100

/-- `lrc_text.split('\n')` (keeps empty parts). -/
def splitNl : List Char → List (List Char)
  | [] => [[]]
  | c :: rest =>
    let r := splitNl rest
    if c = '\n' then [] :: r
    else
      match r with
      | [] => [[c]]
      | h :: t => (c :: h) :: t

/-- The matching lines of the LRC text with their captured fields, in
source order. -/
def rawLrcEntries (lrc_text : String) : List (Nat × Nat × Nat × String) :=
  (splitNl lrc_text.toList).filterMap parseLineRaw

/-- The entries appended by the `parse_lrc` loop, in source order. -/
def lrcEntries (lrc_text : String) : List LyricLine :=
  (rawLrcEntries lrc_text).map (fun e => ⟨lrcTime e.1 e.2.1 e.2.2.1, e.2.2.2⟩)

/-- The sort key order of `sorted(lyrics, key=lambda x: x['time'])`. -/
def timeLE (a b : LyricLine) : Prop := a.time ≤ b.time

instance : DecidableRel timeLE := fun a b => inferInstanceAs (Decidable (a.time ≤ b.time))

instance : IsTotal LyricLine timeLE := ⟨fun a b => le_total a.time b.time⟩

instance : IsTrans LyricLine timeLE := ⟨fun _ _ _ h h' => le_trans h h'⟩

/-- `parse_lrc` (src/main7.py lines 250-265): collect the matching
lines and return them stably sorted ascending by time (`sorted` is a
stable sort; `insertionSort` is its stable-sort model). -/
def parse_lrc (lrc_text : String) : List LyricLine :=
  List.insertionSort timeLE (lrcEntries lrc_text)


/-! ### Current-line resolution (src/main7.py lines 356-373)

The display step of `update_loop`: when `self.lyrics` is non-empty it
starts from `current_idx = 0` and scans the whole list, remembering the
index of every line whose time is `<= elapsed`. -/

/-- The index scan of `update_loop`: `i` is the position of the head of
the remaining list, `idx` the accumulator `current_idx`. -/
def scanIdx (elapsed : ℚ) : List LyricLine → Nat → Nat → Nat
  | [], _, idx => idx
  | l :: rest, i, idx =>
    scanIdx elapsed rest (i + 1) (if l.time ≤ elapsed then i else idx)

/-- Current-line resolution: `none` when the lyrics list is empty (the
display branch is skipped), otherwise the result of the index scan
started at `current_idx = 0`. -/
def currentIndex (lines : List LyricLine) (elapsed : ℚ) : Option Nat :=
  if lines.isEmpty then none else some (scanIdx elapsed lines 0 0)

/-- The greatest index whose line time is `≤ elapsed`, if any
(reference description of what the scan computes). -/
def lastLE (elapsed : ℚ) : List LyricLine → Option Nat
  | [] => none
  | l :: rest =>
    match lastLE elapsed rest with
    | some j => some (j + 1)
    | none => if l.time ≤ elapsed then some 0 else none

/-! ### The HTTP layer of `search_lrclib` (src/main7.py lines 190-248)

`requests.get` / `resp.json()` are modelled by an oracle
`Nat → CallResult` giving the outcome of the n-th HTTP call: the call
can raise (timeout, connection error), or produce a status code with a
body that is either malformed (`resp.json()` raises) or a JSON value.
Python exceptions are `Except Unit`; Python truthiness is `truthy`. -/

/-- A minimal JSON value model. -/
inductive JVal where
  | jnull
  | jbool (b : Bool)
  | jnum (n : Int)
  | jstr (s : String)
  | jlist (xs : List JVal)
  | jobj (fields : List (String × JVal))

/-- Python truthiness of a JSON value. -/
def truthy : JVal → Bool
  | .jnull => false
  | .jbool b => b
  | .jnum n => !(n = 0)
  | .jstr s => !(s = "")
  | .jlist xs => !xs.isEmpty
  | .jobj fs => !fs.isEmpty

/-- `data.get(key)`: `None` (`jnull`) for a missing key on a dict,
`AttributeError` on anything that is not a dict. -/
def dictGet (v : JVal) (key : String) : Except Unit JVal :=
  match v with
  | .jobj fs =>
    match fs.find? (fun f => f.1 = key) with
    | some f => .ok f.2
    | none => .ok .jnull
  | _ => .error ()

/-- `results[0]`: first element of a list, first character of a string,
an exception (`TypeError`/`KeyError`/`IndexError`) otherwise. -/
def pyIndex0 (v : JVal) : Except Unit JVal :=
  match v with
  | .jlist (x :: _) => .ok x
  | .jstr s =>
    match s.toList with
    | c :: _ => .ok (.jstr (String.mk [c]))
    | [] => .error ()
  | _ => .error ()

/-- Outcome of one HTTP call: the call raises, or returns a response
with a status code and a body (`.error` = `resp.json()` raises). -/
inductive CallResult where
  | raise
  | resp (status : Nat) (body : Except Unit JVal)

/-- A query sent to `/api/search`: the `(artist_name, track_name)`
pair, or a free-text `q`. -/
inductive SearchQuery where
  | pair (artist track : String)
  | free (q : String)
deriving DecidableEq

/-- The request log of a `search_lrclib` run. -/
inductive Req where
  | apiGet (track artist : Option String)
  | apiSearch (q : SearchQuery)
  | apiGetId (id : JVal)

/-- Body of one iteration of the query loop (src/main7.py lines
224-241), between `try` and `except`: search call, `results[0]`,
`.get('id')`, follow-up `/api/get/{id}`.  Returns the outcome, the next
call number, and the requests issued. -/
def tryQuery (o : Nat → CallResult) (n : Nat) (q : SearchQuery) :
    Except Unit (Option JVal) × Nat × List Req :=
  match o n with
  | .raise => (.error (), n + 1, [.apiSearch q])
  | .resp st body =>
    if st = 200 then
      match body with
      | .error _ => (.error (), n + 1, [.apiSearch q])
      | .ok results =>
        if truthy results then
          match pyIndex0 results with
          | .error _ => (.error (), n + 1, [.apiSearch q])
          | .ok r0 =>
            match dictGet r0 "id" with
            | .error _ => (.error (), n + 1, [.apiSearch q])
            | .ok rid =>
              if truthy rid then
                match o (n + 1) with
                | .raise => (.error (), n + 2, [.apiSearch q, .apiGetId rid])
                | .resp st2 body2 =>
                  if st2 = 200 then
                    match body2 with
                    | .error _ => (.error (), n + 2, [.apiSearch q, .apiGetId rid])
                    | .ok data =>
                      match dictGet data "syncedLyrics" with
                      | .error _ => (.error (), n + 2, [.apiSearch q, .apiGetId rid])
                      | .ok v =>
                        if truthy v then (.ok (some v), n + 2, [.apiSearch q, .apiGetId rid])
                        else (.ok none, n + 2, [.apiSearch q, .apiGetId rid])
                  else (.ok none, n + 2, [.apiSearch q, .apiGetId rid])
              else (.ok none, n + 1, [.apiSearch q])
        else (.ok none, n + 1, [.apiSearch q])
    else (.ok none, n + 1, [.apiSearch q])

/-- The `for query in queries` loop: each iteration's exceptions are
swallowed by the inner `try`/`except: continue`; a found value returns
immediately. -/
def searchLoop (o : Nat → CallResult) : List SearchQuery → Nat → Option JVal × Nat × List Req
  | [], n => (none, n, [])
  | q :: qs, n =>
    match tryQuery o n q with
    | (.ok (some v), n', l) => (some v, n', l)
    | (.ok none, n', l) =>
      let r := searchLoop o qs n'
      (r.1, r.2.1, l ++ r.2.2)
    | (.error _, n', l) =>
      let r := searchLoop o qs n'
      (r.1, r.2.1, l ++ r.2.2)

/-- The `queries` list built at src/main7.py lines 217-222. -/
def buildQueries (artist song : String) : List SearchQuery :=
  (if artist ≠ "" ∧ song ≠ "" then
    [.pair artist song, .free (artist ++ " " ++ song)]
  else []) ++
  (if song ≠ "" then [.free song] else [])

/-- The exact-match step (src/main7.py lines 197-211): `/api/get` with
`track_name`/`artist_name` when at least one is non-empty. -/
def exactStep (artist song : String) (o : Nat → CallResult) :
    Except Unit (Option JVal) × Nat × List Req :=
  if song = "" ∧ artist = "" then (.ok none, 0, [])
  else
    let req := Req.apiGet (if song = "" then none else some song)
      (if artist = "" then none else some artist)
    match o 0 with
    | .raise => (.error (), 1, [req])
    | .resp st body =>
      if st = 200 then
        match body with
        | .error _ => (.error (), 1, [req])
        | .ok data =>
          match dictGet data "syncedLyrics" with
          | .error _ => (.error (), 1, [req])
          | .ok v =>
            if truthy v then (.ok (some v), 1, [req]) else (.ok none, 1, [req])
      else (.ok none, 1, [req])

/-- The body of `search_lrclib` inside the outer `try` (src/main7.py
lines 192-244): the exact-match step, then the query loop.  An
uncaught exception of the exact step propagates (`.error`). -/
def searchBody (artist song : String) (o : Nat → CallResult) :
    Except Unit (Option JVal) × List Req :=
  match exactStep artist song o with
  | (.error e, _, l) => (.error e, l)
  | (.ok (some v), _, l) => (.ok (some v), l)
  | (.ok none, n, l) =>
    let r := searchLoop o (buildQueries artist song) n
    (.ok r.1, l ++ r.2.2)

/-- `search_lrclib` (src/main7.py lines 190-248): the body wrapped in
the outer `try`/`except Exception: return None`.  Returns the found
`syncedLyrics` value (or `None`) and the request log. -/
def search_lrclib (artist song : String) (o : Nat → CallResult) : Option JVal × List Req :=
  match searchBody artist song o with
  | (.ok v, l) => (v, l)
  | (.error _, l) => (none, l)

/-! ### Shared overlay state, `load_song`, `check_title_change`
(src/main7.py lines 121-129, 267-341) -/

/-- The shared mutable fields of `LyricsOverlay` used by the sync
pipeline (labels and geometry are presentation and not modelled). -/
structure AppState where
  is_loading : Bool
  lyrics : List LyricLine
  start_time : ℚ
  current_song : Option String
  last_title : Option String
deriving DecidableEq

/-- The completion-time computation of `load_song` (src/main7.py lines
301-303): `t0` is the `load_start` reading, `t1` the reading of
`load_time = time.time() - load_start`, `t2` the reading of
`self.start_time = time.time() - load_time`. -/
def completeLoadStartTime (t0 t1 t2 : ℚ) : ℚ :=
  t2 - (t1 - t0)

/-- `load_song` (src/main7.py lines 267-315).  Inputs: the current
state, the sampled YouTube window title (`None` when no window), the
HTTP oracle, and the three `time.time()` readings.  Returns the
Python result (`.ok` return value, or `.error` for a propagated
exception) together with the final state; the `finally` clause clears
`is_loading` on every path. -/
def load_song (st : AppState) (window : Option String) (o : Nat → CallResult)
    (t0 t1 t2 : ℚ) : Except Unit Bool × AppState :=
  if st.is_loading then (.ok false, st)
  else
    let s1 : AppState := { st with is_loading := true }
    match window with
    | none => (.ok false, { s1 with is_loading := false })
    | some yt =>
      if yt = "" then (.ok false, { s1 with is_loading := false })
      else
        let p := parse_song yt
        match (search_lrclib p.1 p.2.1 o).1 with
        | none => (.ok false, { s1 with is_loading := false })
        | some v =>
          match v with
          | .jstr lrc =>
            (.ok true,
              { s1 with
                lyrics := parse_lrc lrc,
                start_time := completeLoadStartTime t0 t1 t2,
                current_song := some p.2.2,
                is_loading := false })
          | _ => (.error (), { s1 with is_loading := false })

/-- `check_title_change` (src/main7.py lines 317-341).  Inputs: the
current state and the sampled window title.  Returns the Python result
and the new state.  A `None` or empty title is falsy (`if not
current`). -/
def check_title_change (st : AppState) (window : Option String) : Bool × AppState :=
  if st.is_loading then (false, st)
  else
    match window with
    | none => (false, st)
    | some current =>
      if current = "" then (false, st)
      else
        match st.last_title with
        | none => (false, { st with last_title := some current })
        | some last =>
          if current ≠ last then
            if clean_title last ≠ clean_title current then
              (true, { st with last_title := some current })
            else
              (false, { st with last_title := some current })
          else (false, st)

/-! ### Properties of the index scan (claim C1) -/

/-- The scan returns `start + (greatest qualifying index)`, or the
accumulator when no line qualifies. -/
theorem scanIdx_lastLE (e : ℚ) : ∀ (ls : List LyricLine) (i idx : Nat),
    scanIdx e ls i idx = (match lastLE e ls with
      | some j => i + j
      | none => idx)
  | [], _, _ => rfl
  | l :: rest, i, idx => by
    simp only [scanIdx, lastLE]
    rw [scanIdx_lastLE e rest (i + 1)]
    cases h : lastLE e rest with
    | some j => simp [Nat.add_assoc, Nat.add_comm 1 j]
    | none => by_cases hc : l.time ≤ e <;> simp [hc]

/-- If no index qualifies then no line time is `≤ elapsed`. -/
theorem lastLE_none (e : ℚ) : ∀ ls, lastLE e ls = none → ∀ l ∈ ls, ¬l.time ≤ e
  | [], _, l, hl => by cases hl
  | x :: rest, h, l, hl => by
    simp only [lastLE] at h
    cases h' : lastLE e rest with
    | some j => rw [h'] at h; cases h
    | none =>
      rw [h'] at h
      by_cases hc : x.time ≤ e
      · simp [hc] at h
      · rcases List.mem_cons.mp hl with rfl | hmem
        · exact hc
        · exact lastLE_none e rest h' l hmem

/-- If no line time is `≤ elapsed` then no index qualifies. -/
theorem lastLE_none_of (e : ℚ) : ∀ ls, (∀ l ∈ ls, ¬l.time ≤ e) → lastLE e ls = none
  | [], _ => rfl
  | x :: rest, h => by
    simp only [lastLE]
    rw [lastLE_none_of e rest (fun l hl => h l (List.mem_cons_of_mem x hl))]
    simp [h x (List.mem_cons_self x rest)]

/-- `lastLE` returns a qualifying index that dominates every other
qualifying index. -/
theorem lastLE_spec (e : ℚ) : ∀ (ls : List LyricLine) (j : Nat), lastLE e ls = some j →
    ∃ h : j < ls.length, (ls.get ⟨j, h⟩).time ≤ e ∧
      ∀ (k : Fin ls.length), (ls.get k).time ≤ e → (k : Nat) ≤ j
  | [], j, h => by cases h
  | x :: rest, j, h => by
    simp only [lastLE] at h
    cases h' : lastLE e rest with
    | some j' =>
      rw [h'] at h
      cases h
      obtain ⟨hlt, hq, hmax⟩ := lastLE_spec e rest j' h'
      refine ⟨Nat.succ_lt_succ hlt, hq, ?_⟩
      intro k hk
      match k with
      | ⟨0, _⟩ => exact Nat.zero_le _
      | ⟨k' + 1, hk'⟩ =>
        exact Nat.succ_le_succ (hmax ⟨k', Nat.lt_of_succ_lt_succ hk'⟩ hk)
    | none =>
      rw [h'] at h
      by_cases hc : x.time ≤ e
      · simp only [hc, if_true] at h
        cases h
        refine ⟨Nat.succ_pos _, hc, ?_⟩
        intro k hk
        match k with
        | ⟨0, _⟩ => exact Nat.le_refl 0
        | ⟨k' + 1, hk'⟩ =>
          exact absurd hk
            (lastLE_none e rest h' _ (rest.get_mem k' (Nat.lt_of_succ_lt_succ hk')))
      · simp [hc] at h

/-- When the final line qualifies, `lastLE` is the final index. -/
theorem lastLE_last (e : ℚ) : ∀ (ls : List LyricLine) (h : ls ≠ []),
    (ls.getLast h).time ≤ e → lastLE e ls = some (ls.length - 1)
  | [], h, _ => absurd rfl h
  | [x], _, hq => by simp only [List.getLast] at hq; simp [lastLE, hq]
  | x :: y :: rest, _, hq => by
    have hne : y :: rest ≠ [] := by simp
    have h2 := lastLE_last e (y :: rest) hne (by
      rw [List.getLast_cons hne] at hq
      exact hq)
    rw [show lastLE e (x :: y :: rest) = (match lastLE e (y :: rest) with
      | some j => some (j + 1)
      | none => if x.time ≤ e then some 0 else none) from rfl, h2]
    simp

/-- C1 (counterexample): the claim says the current-line resolution
returns none when elapsed is strictly below the first line's time; on
the sorted two-line list with times 10 and 20 and elapsed 3 the index
scan of `update_loop` yields index 0 instead. -/
theorem C1_counterexample :
    ([⟨10, "a"⟩, ⟨20, "b"⟩] : List LyricLine).Pairwise timeLE ∧
    (3 : ℚ) < 10 ∧
    currentIndex [⟨10, "a"⟩, ⟨20, "b"⟩] 3 = some 0 := by
  refine ⟨?_, by decide, by decide⟩
  decide

/-- C1 (amended): for lines sorted ascending by time, the current-line
resolution of `update_loop` returns none when the list is empty; it
returns index 0 (not none) when elapsed is strictly below the first
line's time; otherwise it returns the greatest index whose line time is
`≤ elapsed`; in particular it returns `length - 1` whenever elapsed is
`≥` the last line's time. -/
theorem C1_currentIndex_resolution (lines : List LyricLine) (e : ℚ)
    (hsort : lines.Pairwise timeLE) :
    (lines = [] → currentIndex lines e = none) ∧
    (∀ l0 rest, lines = l0 :: rest → e < l0.time → currentIndex lines e = some 0) ∧
    (∀ h : lines ≠ [], (lines.head h).time ≤ e →
      ∃ k, currentIndex lines e = some k ∧
        ∃ hk : k < lines.length, (lines.get ⟨k, hk⟩).time ≤ e ∧
          ∀ (j : Fin lines.length), (lines.get j).time ≤ e → (j : Nat) ≤ k) ∧
    (∀ h : lines ≠ [], (lines.getLast h).time ≤ e →
      currentIndex lines e = some (lines.length - 1)) := by
  refine ⟨?_, ?_, ?_, ?_⟩
  · intro h; subst h; rfl
  · rintro l0 rest rfl hlt
    have hnone : lastLE e (l0 :: rest) = none := by
      apply lastLE_none_of
      intro l hl
      rcases List.mem_cons.mp hl with rfl | hmem
      · exact not_le.mpr hlt
      · have : l0.time ≤ l.time := (List.pairwise_cons.mp hsort).1 l hmem
        exact not_le.mpr (lt_of_lt_of_le hlt this)
    simp only [currentIndex, List.isEmpty_cons, scanIdx_lastLE, hnone]
    rfl
  · intro h hhead
    cases hl : lastLE e lines with
    | none =>
      exact absurd hhead (lastLE_none e lines hl _ (List.head_mem h))
    | some j =>
      obtain ⟨hj, hq, hmax⟩ := lastLE_spec e lines j hl
      refine ⟨j, ?_, hj, hq, hmax⟩
      have hne : lines.isEmpty = false := by
        cases lines with
        | nil => exact absurd rfl h
        | cons a l => rfl
      simp only [currentIndex, hne, scanIdx_lastLE, hl]
      simp
  · intro h hlast
    have hl := lastLE_last e lines h hlast
    have hne : lines.isEmpty = false := by
      cases lines with
      | nil => exact absurd rfl h
      | cons a l => rfl
    simp only [currentIndex, hne, scanIdx_lastLE, hl]
    simp

/-- C1 (witness): the amended theorem applied to the concrete sorted
list with times 10 and 20 at elapsed 30 yields the final index. -/
theorem C1_currentIndex_resolution_witness :
    currentIndex [⟨10, "a"⟩, ⟨20, "b"⟩] 30 = some 1 := by
  have h := (C1_currentIndex_resolution [⟨10, "a"⟩, ⟨20, "b"⟩] 30
    (by decide)).2.2.2
      (by simp) (by simp [List.getLast]; decide)
  simpa using h

/-- C2: with no load in flight, a sampled (non-falsy) title and a
last-observed title, `check_title_change` reports a change iff the raw
titles differ and the cleaned titles differ; whenever the raw titles
differ `last_title` is updated to the new raw title (even when the
cleaned forms are equal); while loading, or with no window found, it
reports no change. -/
theorem C2_check_title_change_guard :
    (∀ (s : AppState) (w : Option String), s.is_loading = true →
      check_title_change s w = (false, s)) ∧
    (∀ s : AppState, check_title_change s none = (false, s)) ∧
    (∀ (s : AppState) (t lt : String), s.is_loading = false → t ≠ "" →
      s.last_title = some lt →
      ((check_title_change s (some t)).1 = true ↔
        (t ≠ lt ∧ clean_title lt ≠ clean_title t)) ∧
      (t ≠ lt → (check_title_change s (some t)).2.last_title = some t) ∧
      (t = lt → check_title_change s (some t) = (false, s))) := by
  refine ⟨?_, ?_, ?_⟩
  · intro s w h
    simp [check_title_change, h]
  · intro s
    by_cases h : s.is_loading <;> simp [check_title_change, h]
  · intro s t lt h ht hlt
    by_cases htl : t = lt
    · subst htl
      simp [check_title_change, h, ht, hlt]
    · by_cases hcl : clean_title lt = clean_title t
      · simp [check_title_change, h, ht, hlt, htl, hcl]
      · simp [check_title_change, h, ht, hlt, htl, hcl]

/-- C2 (witness): a concrete changed title with distinct cleaned forms
is reported and recorded. -/
theorem C2_check_title_change_guard_witness :
    (check_title_change ⟨false, [], 0, none, some "A - YouTube"⟩ (some "B - YouTube")).1 = true ∧
    (check_title_change ⟨false, [], 0, none, some "A - YouTube"⟩
      (some "B - YouTube")).2.last_title = some "B - YouTube" := by
  have h := C2_check_title_change_guard.2.2 ⟨false, [], 0, none, some "A - YouTube"⟩
    "B - YouTube" "A - YouTube" rfl (by decide) rfl
  exact ⟨h.1.mpr ⟨by decide, by decide⟩, h.2.1 (by decide)⟩

/-- C3: on a successful load, `start_time` is set to
`t2 - (t1 - t0)` (second completion-time reading minus load
duration), so the elapsed clock `t - start_time` differs from the
time since the load began `t - t0` by exactly `t1 - t2`, which is
within any tolerance bounding the gap between the two completion-time
readings. -/
theorem C3_start_time_compensation :
    (∀ (st : AppState) (yt : String) (o : Nat → CallResult) (t0 t1 t2 : ℚ) (lrc : String),
      st.is_loading = false → yt ≠ "" →
      (search_lrclib (parse_song yt).1 (parse_song yt).2.1 o).1 = some (.jstr lrc) →
      (load_song st (some yt) o t0 t1 t2).2.start_time = t2 - (t1 - t0)) ∧
    (∀ t0 t1 t2 t : ℚ, (t - completeLoadStartTime t0 t1 t2) - (t - t0) = t1 - t2) ∧
    (∀ t0 t1 t2 t tol : ℚ, t1 ≤ t2 → t2 - t1 ≤ tol →
      |(t - completeLoadStartTime t0 t1 t2) - (t - t0)| ≤ tol) := by
  refine ⟨?_, ?_, ?_⟩
  · intro st yt o t0 t1 t2 lrc h hyt hs
    simp [load_song, h, hyt, hs, completeLoadStartTime]
  · intro t0 t1 t2 t
    unfold completeLoadStartTime
    ring
  · intro t0 t1 t2 t tol h1 h2
    have he : (t - completeLoadStartTime t0 t1 t2) - (t - t0) = -(t2 - t1) := by
      unfold completeLoadStartTime
      ring
    rw [he, abs_neg, abs_of_nonneg (by linarith)]
    exact h2

/-- C3 (witness): concrete readings 100, 107, 107.5 give
`start_time = 107.5 - 7` and a sync error within tolerance 1/2. -/
theorem C3_start_time_compensation_witness :
    (load_song ⟨false, [], 0, none, none⟩ (some "A - B")
      (fun _ => .resp 200 (.ok (.jobj [("syncedLyrics", .jstr "[00:01.00]x")])))
      100 107 (215/2)).2.start_time = 215/2 - (107 - 100) ∧
    |(120 - completeLoadStartTime 100 107 (215/2)) - (120 - 100)| ≤ (1/2 : ℚ) := by
  constructor
  · exact C3_start_time_compensation.1 ⟨false, [], 0, none, none⟩ "A - B"
      (fun _ => .resp 200 (.ok (.jobj [("syncedLyrics", .jstr "[00:01.00]x")])))
      100 107 (215/2) "[00:01.00]x" rfl (by decide) rfl
  · exact C3_start_time_compensation.2.2 100 107 (215/2) 120 (1/2)
      (by norm_num) (by norm_num)

/-- C4: a reentrant `load_song` call fails fast with no state change,
and a non-reentrant call ends with `is_loading` false on every exit
path (normal return and propagated exception alike, thanks to the
`finally` clause). -/
theorem C4_loading_guard :
    (∀ (st : AppState) (w : Option String) (o : Nat → CallResult) (t0 t1 t2 : ℚ),
      st.is_loading = true → load_song st w o t0 t1 t2 = (.ok false, st)) ∧
    (∀ (st : AppState) (w : Option String) (o : Nat → CallResult) (t0 t1 t2 : ℚ),
      st.is_loading = false → (load_song st w o t0 t1 t2).2.is_loading = false) := by
  constructor
  · intro st w o t0 t1 t2 h
    simp [load_song, h]
  · intro st w o t0 t1 t2 h
    unfold load_song
    rw [h]
    rw [if_neg (by simp)]
    cases w with
    | none => rfl
    | some yt =>
      dsimp only
      by_cases hyt : yt = ""
      · rw [if_pos hyt]
      · rw [if_neg hyt]
        cases (search_lrclib (parse_song yt).1 (parse_song yt).2.1 o).1 with
        | none => rfl
        | some v => cases v <;> rfl

/-- C4 (witness): a loading state is returned unchanged with a false
result; a clean state ends not-loading. -/
theorem C4_loading_guard_witness :
    load_song ⟨true, [], 0, none, none⟩ none (fun _ => .raise) 0 0 0 =
      (.ok false, (⟨true, [], 0, none, none⟩ : AppState)) ∧
    (load_song ⟨false, [], 0, none, none⟩ none (fun _ => .raise) 0 0 0).2.is_loading = false :=
  ⟨C4_loading_guard.1 ⟨true, [], 0, none, none⟩ none (fun _ => .raise) 0 0 0 rfl,
    C4_loading_guard.2 ⟨false, [], 0, none, none⟩ none (fun _ => .raise) 0 0 0 rfl⟩

/-- C9: a reload never partially applies — with no window or a failed
fetch, `load_song` returns false and keeps `lyrics`, `start_time` and
`current_song` at their prior values; on success all three are updated
together in the same call. -/
theorem C9_reload_atomicity :
    (∀ (st : AppState) (o : Nat → CallResult) (t0 t1 t2 : ℚ), st.is_loading = false →
      (load_song st none o t0 t1 t2).1 = .ok false ∧
      (load_song st none o t0 t1 t2).2.lyrics = st.lyrics ∧
      (load_song st none o t0 t1 t2).2.start_time = st.start_time ∧
      (load_song st none o t0 t1 t2).2.current_song = st.current_song) ∧
    (∀ (st : AppState) (yt : String) (o : Nat → CallResult) (t0 t1 t2 : ℚ),
      st.is_loading = false → yt ≠ "" →
      (search_lrclib (parse_song yt).1 (parse_song yt).2.1 o).1 = none →
      (load_song st (some yt) o t0 t1 t2).1 = .ok false ∧
      (load_song st (some yt) o t0 t1 t2).2.lyrics = st.lyrics ∧
      (load_song st (some yt) o t0 t1 t2).2.start_time = st.start_time ∧
      (load_song st (some yt) o t0 t1 t2).2.current_song = st.current_song) ∧
    (∀ (st : AppState) (yt lrc : String) (o : Nat → CallResult) (t0 t1 t2 : ℚ),
      st.is_loading = false → yt ≠ "" →
      (search_lrclib (parse_song yt).1 (parse_song yt).2.1 o).1 = some (.jstr lrc) →
      load_song st (some yt) o t0 t1 t2 =
        (.ok true, { st with
          is_loading := false,
          lyrics := parse_lrc lrc,
          start_time := completeLoadStartTime t0 t1 t2,
          current_song := some (parse_song yt).2.2 })) := by
  refine ⟨?_, ?_, ?_⟩
  · intro st o t0 t1 t2 h
    simp [load_song, h]
  · intro st yt o t0 t1 t2 h hyt hs
    simp [load_song, h, hyt, hs]
  · intro st yt lrc o t0 t1 t2 h hyt hs
    simp [load_song, h, hyt, hs]

/-- C9 (witness): a concrete successful reload updates the three
fields together. -/
theorem C9_reload_atomicity_witness :
    load_song ⟨false, [⟨1, "old"⟩], 5, some "old", none⟩ (some "A - B")
      (fun _ => .resp 200 (.ok (.jobj [("syncedLyrics", .jstr "[00:01.00]x")]))) 0 0 0 =
      (.ok true, (⟨false, parse_lrc "[00:01.00]x", completeLoadStartTime 0 0 0,
        some "A - B", none⟩ : AppState)) := by
  have h := C9_reload_atomicity.2.2 ⟨false, [⟨1, "old"⟩], 5, some "old", none⟩
    "A - B" "[00:01.00]x"
    (fun _ => .resp 200 (.ok (.jobj [("syncedLyrics", .jstr "[00:01.00]x")])))
    0 0 0 rfl (by decide) rfl
  simpa using h

/-! ### Claims C6 and C10: the LRC decoder -/

/-- `takeWhile`/`dropWhile` split an appended list at the first
non-satisfying element. -/
theorem takeWhile_append_of (p : Char → Bool) : ∀ (xs : List Char) (y : Char) (ys : List Char),
    (∀ c ∈ xs, p c = true) → p y = false →
    (xs ++ y :: ys).takeWhile p = xs ∧ (xs ++ y :: ys).dropWhile p = y :: ys
  | [], y, ys, _, hy => by
    simp [List.takeWhile_cons, List.dropWhile_cons, hy]
  | x :: xs, y, ys, hall, hy => by
    have hx : p x = true := hall x (List.mem_cons_self x xs)
    have ih := takeWhile_append_of p xs y ys (fun c hc => hall c (List.mem_cons_of_mem x hc)) hy
    simp [List.takeWhile_cons, List.dropWhile_cons, hx, ih.1, ih.2]

/-- The timestamp matcher accepts digit runs of any length in all
three numeric fields and returns their integer values with the
untouched trailing text. -/
theorem matchTs_build (d1 d2 d3 text : List Char)
    (h1 : d1 ≠ []) (h2 : d2 ≠ []) (h3 : d3 ≠ [])
    (a1 : ∀ c ∈ d1, c.isDigit = true) (a2 : ∀ c ∈ d2, c.isDigit = true)
    (a3 : ∀ c ∈ d3, c.isDigit = true) :
    matchTs ('[' :: (d1 ++ ':' :: (d2 ++ '.' :: (d3 ++ ']' :: text)))) =
      some (digitsVal d1, digitsVal d2, digitsVal d3, text) := by
  have e1 := takeWhile_append_of Char.isDigit d1 ':' (d2 ++ '.' :: (d3 ++ ']' :: text))
    a1 (by decide)
  have e2 := takeWhile_append_of Char.isDigit d2 '.' (d3 ++ ']' :: text) a2 (by decide)
  have e3 := takeWhile_append_of Char.isDigit d3 ']' text a3 (by decide)
  obtain ⟨x1, t1, rfl⟩ := List.exists_cons_of_ne_nil h1
  obtain ⟨x2, t2, rfl⟩ := List.exists_cons_of_ne_nil h2
  obtain ⟨x3, t3, rfl⟩ := List.exists_cons_of_ne_nil h3
  simp only [matchTs, e1.1, e1.2, e2.1, e2.2, e3.1, e3.2, List.isEmpty_cons,
    Bool.false_eq_true, if_false]

/-- C10: `parse_lrc` accepts fractional fields of any digit count and
always divides their value by 100, and places no upper bound on the
minutes or seconds fields: `[00:05.5]` gives time 5.05 (101/20),
`[00:05.123]` gives 6.23 (623/100), and `[00:99.00]` is accepted with
time 99. -/
theorem C10_fraction_semantics :
    (∀ (d1 d2 d3 text : List Char), d1 ≠ [] → d2 ≠ [] → d3 ≠ [] →
      (∀ c ∈ d1, c.isDigit = true) → (∀ c ∈ d2, c.isDigit = true) →
      (∀ c ∈ d3, c.isDigit = true) →
      matchTs ('[' :: (d1 ++ ':' :: (d2 ++ '.' :: (d3 ++ ']' :: text)))) =
        some (digitsVal d1, digitsVal d2, digitsVal d3, text)) ∧
    (∀ m s c : Nat, lrcTime m s c = (m : ℚ) * 60 + (s : ℚ) + (c : ℚ) / 100) ∧
    parse_lrc "[00:05.5]text" = [⟨101/20, "text"⟩] ∧
    parse_lrc "[00:05.123]text" = [⟨623/100, "text"⟩] ∧
    parse_lrc "[00:99.00]text" = [⟨99, "text"⟩] := by
  refine ⟨matchTs_build, fun m s c => rfl, ?_, ?_, ?_⟩
  · have h : rawLrcEntries "[00:05.5]text" = [(0, 5, 5, "text")] := by decide
    unfold parse_lrc lrcEntries
    rw [h]
    norm_num [lrcTime, List.insertionSort, List.orderedInsert, timeLE]
  · have h : rawLrcEntries "[00:05.123]text" = [(0, 5, 123, "text")] := by decide
    unfold parse_lrc lrcEntries
    rw [h]
    norm_num [lrcTime, List.insertionSort, List.orderedInsert, timeLE]
  · have h : rawLrcEntries "[00:99.00]text" = [(0, 99, 0, "text")] := by decide
    unfold parse_lrc lrcEntries
    rw [h]
    norm_num [lrcTime, List.insertionSort, List.orderedInsert, timeLE]

/-- C10 (witness): the general matcher statement applied to the digit
runs of `[0:5.123]x`. -/
theorem C10_fraction_semantics_witness :
    matchTs ('[' :: (['0'] ++ ':' :: (['5'] ++ '.' :: (['1', '2', '3'] ++ ']' :: ['x'])))) =
      some (0, 5, 123, ['x']) := by
  have h := C10_fraction_semantics.1 ['0'] ['5'] ['1', '2', '3'] ['x']
    (by decide) (by decide) (by decide) (by decide) (by decide) (by decide)
  simpa using h

/-- C6: `parse_lrc` returns exactly the entries of the matching lines
with non-empty trimmed text (a permutation of the source-order
entries), stably sorted ascending by time: sorted entry sublists keep
their relative order, and on the specification's example the blank
line is dropped and the result is the two entries in ascending order;
a duplicate-time example keeps source order among equal times. -/
theorem C6_parse_lrc_decode :
    (∀ t : String, (parse_lrc t).Perm (lrcEntries t)) ∧
    (∀ t : String, (parse_lrc t).Pairwise timeLE) ∧
    (∀ (t : String) (c : List LyricLine), c.Pairwise timeLE → c.Sublist (lrcEntries t) →
      c.Sublist (parse_lrc t)) ∧
    parse_lrc "[00:12.50]Hello\n[00:05.00]World\n[bad line]\n[00:05.00]" =
      [⟨5, "World"⟩, ⟨25/2, "Hello"⟩] ∧
    parse_lrc "[00:05.00]B\n[00:03.00]A\n[00:05.00]C" =
      [⟨3, "A"⟩, ⟨5, "B"⟩, ⟨5, "C"⟩] := by
  refine ⟨?_, ?_, ?_, ?_, ?_⟩
  · intro t
    exact List.perm_insertionSort timeLE (lrcEntries t)
  · intro t
    exact List.sorted_insertionSort timeLE (lrcEntries t)
  · intro t c hc hs
    exact List.sublist_insertionSort hc hs
  · have h : rawLrcEntries "[00:12.50]Hello\n[00:05.00]World\n[bad line]\n[00:05.00]" =
        [(0, 12, 50, "Hello"), (0, 5, 0, "World")] := by decide
    unfold parse_lrc lrcEntries
    rw [h]
    norm_num [lrcTime, List.insertionSort, List.orderedInsert, timeLE]
  · have h : rawLrcEntries "[00:05.00]B\n[00:03.00]A\n[00:05.00]C" =
        [(0, 5, 0, "B"), (0, 3, 0, "A"), (0, 5, 0, "C")] := by decide
    unfold parse_lrc lrcEntries
    rw [h]
    norm_num [lrcTime, List.insertionSort, List.orderedInsert, timeLE]

/-- C6 (witness): the stability statement applied to the concrete
duplicate-time entries of the third example. -/
theorem C6_parse_lrc_decode_witness :
    ([⟨5, "B"⟩, ⟨5, "C"⟩] : List LyricLine).Sublist
      (parse_lrc "[00:05.00]B\n[00:03.00]A\n[00:05.00]C") := by
  have h := C6_parse_lrc_decode.2.2.1 "[00:05.00]B\n[00:03.00]A\n[00:05.00]C"
    [⟨5, "B"⟩, ⟨5, "C"⟩] (by decide) ?_
  · exact h
  · have he : lrcEntries "[00:05.00]B\n[00:03.00]A\n[00:05.00]C" =
        [⟨5, "B"⟩, ⟨3, "A"⟩, ⟨5, "C"⟩] := by
      have h : rawLrcEntries "[00:05.00]B\n[00:03.00]A\n[00:05.00]C" =
          [(0, 5, 0, "B"), (0, 3, 0, "A"), (0, 5, 0, "C")] := by decide
      unfold lrcEntries
      rw [h]
      norm_num [lrcTime]
    rw [he]
    decide

/-- C5 (counterexample): `clean_title` is not idempotent.  Removing the
`(official)` annotation from `"Song - You(official)Tube"` creates the
new platform suffix `"- YouTube"`, which the same pass has already gone
past; a second application strips it, so the cleaned form changes
again. -/
theorem C5_counterexample :
    clean_title "Song - You(official)Tube" = "Song - YouTube" ∧
    clean_title (clean_title "Song - You(official)Tube") = "Song" ∧
    clean_title (clean_title "Song - You(official)Tube") ≠
      clean_title "Song - You(official)Tube" := by
  refine ⟨by decide, by decide, by decide⟩

/-- C5 (amended): `clean_title` is not idempotent in general (removing
an annotation group can create a platform suffix that only a second
pass strips), but platform-suffix removal is case-insensitive:
`"Song - Artist - YouTube"` and its differently-cased variants all
strip the `- YouTube` suffix and everything after it. -/
theorem C5_clean_title_suffix :
    clean_title "Song - Artist - YouTube" = "Song - Artist" ∧
    clean_title "Song - Artist - youtube" = "Song - Artist" ∧
    clean_title "Song - Artist - YOUTUBE extra junk" = "Song - Artist" ∧
    ∃ x : String, clean_title (clean_title x) ≠ clean_title x := by
  exact ⟨by decide, by decide, by decide, "Song - You(official)Tube", by decide⟩

/-! ### Claims C7 and C8: the lookup cascade -/

/-- A query-loop iteration only returns a value that is truthy. -/
theorem tryQuery_some_truthy (o : Nat → CallResult) (n : Nat) (q : SearchQuery) (v : JVal)
    (h : (tryQuery o n q).1 = .ok (some v)) : truthy v = true := by
  unfold tryQuery at h
  repeat' split at h
  all_goals simp_all

/-- The query loop only returns a value that is truthy. -/
theorem searchLoop_some_truthy (o : Nat → CallResult) :
    ∀ (qs : List SearchQuery) (n : Nat) (v : JVal),
      (searchLoop o qs n).1 = some v → truthy v = true
  | [], n, v, h => by simp [searchLoop] at h
  | q :: qs, n, v, h => by
    unfold searchLoop at h
    split at h
    next w n2 l2 heq =>
      have hv : w = v := by simpa using h
      exact hv ▸ tryQuery_some_truthy o n q w (by rw [heq])
    next n2 l2 heq =>
      exact searchLoop_some_truthy o qs n2 v (by simpa using h)
    next e n2 l2 heq =>
      exact searchLoop_some_truthy o qs n2 v (by simpa using h)

/-- The exact-match step only returns a value that is truthy. -/
theorem exactStep_some_truthy (artist song : String) (o : Nat → CallResult) (v : JVal)
    (h : (exactStep artist song o).1 = .ok (some v)) : truthy v = true := by
  unfold exactStep at h
  repeat' split at h
  all_goals simp_all

/-- The whole body only returns a value that is truthy. -/
theorem searchBody_some_truthy (artist song : String) (o : Nat → CallResult) (v : JVal)
    (h : (searchBody artist song o).1 = .ok (some v)) : truthy v = true := by
  unfold searchBody at h
  split at h
  next e l heq => simp at h
  next w n2 l2 heq =>
    have hv : w = v := by simpa using h
    exact hv ▸ exactStep_some_truthy artist song o w (by rw [heq])
  next n2 l2 heq =>
    have hl : (searchLoop o (buildQueries artist song) n2).1 = some v := by simpa using h
    exact searchLoop_some_truthy o (buildQueries artist song) n2 v hl

/-- C7: `search_lrclib` never raises: for every artist/song input and
every behavior of the HTTP layer — a raising call, a non-200 status, a
malformed JSON body, a wrongly-shaped value, or missing fields — the
outer handler turns every propagated exception into `None`, so the
call always returns either a (truthy) lyrics value or none. -/
theorem C7_search_never_raises :
    (∀ (artist song : String) (o : Nat → CallResult),
      (search_lrclib artist song o).1 = none ∨
      ∃ v, (search_lrclib artist song o).1 = some v ∧ truthy v = true) ∧
    (∀ (artist song : String) (o : Nat → CallResult) (e : Unit) (l : List Req),
      searchBody artist song o = (.error e, l) → search_lrclib artist song o = (none, l)) := by
  constructor
  · intro artist song o
    unfold search_lrclib
    cases hb : searchBody artist song o with
    | mk r l =>
      cases r with
      | error e => exact Or.inl rfl
      | ok v =>
        cases v with
        | none => exact Or.inl rfl
        | some v =>
          refine Or.inr ⟨v, rfl, ?_⟩
          exact searchBody_some_truthy artist song o v (by rw [hb])
  · intro artist song o e l h
    unfold search_lrclib
    rw [h]

/-- C7 (witness): a connection failure on every call degrades to
absence after the single exact-match request. -/
theorem C7_search_never_raises_witness :
    search_lrclib "A" "B" (fun _ => .raise) = (none, [.apiGet (some "B") (some "A")]) :=
  C7_search_never_raises.2 "A" "B" (fun _ => .raise) () [.apiGet (some "B") (some "A")] rfl

/-- C8 (counterexample): the claim says every response shape other
than a success is treated as absence with the next strategy attempted;
but a 200 response with a malformed JSON body on the exact `/api/get`
step raises out of the whole cascade to the outer handler, returning
none with no search strategy ever attempted (the request log holds
only the exact-match request). -/
theorem C8_counterexample :
    search_lrclib "A" "B" (fun _ => .resp 200 (.error ())) =
      (none, [.apiGet (some "B") (some "A")]) := rfl

/-- C8 (amended): the lookup strategies run in the fixed order exact
`/api/get`, search by `(artist_name, track_name)` pair, free-text
artist+song, free-text song, stopping at the first success; each
non-empty search result is followed by an exact fetch of the first
candidate's id; a step succeeds only when its response carries a
truthy `syncedLyrics` value; a non-200 status (or a dict without a
truthy `syncedLyrics`) moves to the next strategy, while an exception
in the exact step aborts the cascade with none. -/
theorem C8_strategy_order :
    (∀ (a s : String) (o : Nat → CallResult), a ≠ "" → s ≠ "" →
      (∀ n, o n = .resp 404 (.ok .jnull)) →
      search_lrclib a s o =
        (none, [.apiGet (some s) (some a), .apiSearch (.pair a s),
          .apiSearch (.free (a ++ " " ++ s)), .apiSearch (.free s)])) ∧
    (∀ (a s : String) (o : Nat → CallResult) (v : JVal), s ≠ "" →
      o 0 = .resp 200 (.ok (.jobj [("syncedLyrics", v)])) → truthy v = true →
      search_lrclib a s o =
        (some v, [.apiGet (some s) (if a = "" then none else some a)])) ∧
    (∀ (a s : String) (o : Nat → CallResult) (rid lyr : JVal), a ≠ "" → s ≠ "" →
      o 0 = .resp 404 (.ok .jnull) →
      o 1 = .resp 200 (.ok (.jlist [.jobj [("id", rid)]])) → truthy rid = true →
      o 2 = .resp 200 (.ok (.jobj [("syncedLyrics", lyr)])) → truthy lyr = true →
      search_lrclib a s o =
        (some lyr, [.apiGet (some s) (some a), .apiSearch (.pair a s), .apiGetId rid])) ∧
    (∀ (a s : String) (o : Nat → CallResult) (v : JVal),
      (search_lrclib a s o).1 = some v → truthy v = true) := by
  refine ⟨?_, ?_, ?_, ?_⟩
  · intro a s o ha hs ho
    simp [search_lrclib, searchBody, exactStep, buildQueries, searchLoop, tryQuery,
      ho, ha, hs]
  · intro a s o v hs ho ht
    simp [search_lrclib, searchBody, exactStep, dictGet, List.find?, ho, hs, ht]
  · intro a s o rid lyr ha hs ho0 ho1 ht1 ho2 ht2
    have e1 : truthy (JVal.jlist [JVal.jobj [("id", rid)]]) = true := rfl
    have e2 : pyIndex0 (JVal.jlist [JVal.jobj [("id", rid)]]) =
        .ok (JVal.jobj [("id", rid)]) := rfl
    have e3 : dictGet (JVal.jobj [("id", rid)]) "id" = .ok rid := rfl
    have e4 : dictGet (JVal.jobj [("syncedLyrics", lyr)]) "syncedLyrics" = .ok lyr := rfl
    simp [search_lrclib, searchBody, exactStep, buildQueries, searchLoop, tryQuery,
      ho0, ho1, ho2, ha, hs, ht1, ht2, e1, e2, e3, e4]
  · intro a s o v h
    unfold search_lrclib at h
    split at h
    next w l heq =>
      have hw : w = some v := by simpa using h
      exact searchBody_some_truthy a s o v (by rw [heq, hw])
    next e l heq => simp at h

/-- C8 (witness): with both names non-empty and every call returning
404, the four requests are issued in the claimed order and nothing is
found. -/
theorem C8_strategy_order_witness :
    search_lrclib "A" "B" (fun _ => .resp 404 (.ok .jnull)) =
      (none, [.apiGet (some "B") (some "A"), .apiSearch (.pair "A" "B"),
        .apiSearch (.free ("A" ++ " " ++ "B")), .apiSearch (.free "B")]) :=
  C8_strategy_order.1 "A" "B" (fun _ => .resp 404 (.ok .jnull))
    (by decide) (by decide) (fun n => rfl)
